import Mathlib

/-!
Shallow embedding of the quote-comparison chatbot dialogue controller
(statement_4_quote_comparison: main.py and app.py of the repository).

The controller logic (understand_question, get_plans, generate_answer, chat,
and the Flask chat endpoint) is translated directly from the source. The
external collaborators — the two LLM calls, json.loads, and the Chroma
vector-store search — are abstracted as function-valued fields of `Collab`;
everything the controller itself does with their results is modelled
faithfully: JSON values decoded by json.loads become the `Json` type, Python
dict subscripting that can raise KeyError/TypeError becomes `Json.lookup`
into `Except PyError`, Python iteration over a decoded value becomes
`Json.pyIter`, and exceptions raised by collaborators propagate through
`Except` exactly where the source has no try/except.
-/

/-- A JSON value as decoded by json.loads. JSON numbers are modelled as
integers (the premium amounts of the source are integers). -/
inductive Json where
  | null
  | bool (b : Bool)
  | num (n : Int)
  | str (s : String)
  | arr (items : List Json)
  | obj (fields : List (String × Json))

/-- A Python exception as it travels up the call stack: a dict subscript
miss (KeyError), an operation on a value of the wrong type (TypeError), or
any exception raised inside an external collaborator call. -/
inductive PyError where
  | keyError (key : String)
  | typeError (msg : String)
  | exn (msg : String)
deriving Repr, DecidableEq

/-- What Python renders for str(e) when the exception reaches the serving
boundary's except-block: str of a KeyError is the quoted key. -/
def PyError.message : PyError → String
  | .keyError key => "\x27" ++ key ++ "\x27"
  | .typeError msg => msg
  | .exn msg => msg

/-- One document returned by the vector store: page_content plus the
premium key from its metadata. -/
structure Record where
  page_content : String
  premium : Int
deriving Repr, DecidableEq

/-- One history entry as the source builds it: the dicts
  \x7b"user": ..., "bot": ..., "plans": ...\x7d  (plans := some ...) of chat, and
the serializable dicts of the Flask endpoint that omit "plans" (plans := none). -/
structure HistItem where
  user : String
  bot : String
  plans : Option (List Record)
deriving Repr, DecidableEq

mutual

/-- Python repr() of a decoded JSON value (used when such a value is
interpolated inside a container). -/
def Json.pyRepr : Json → String
  | .null => "None"
  | .bool b => cond b "True" "False"
  | .num n => toString n
  | .str s => "\x27" ++ s ++ "\x27"
  | .arr items => "[" ++ pyReprItems items ++ "]"
  | .obj fields => "\x7b" ++ pyReprFields fields ++ "\x7d"

/-- Comma-separated reprs of the elements of a decoded JSON list. -/
def pyReprItems : List Json → String
  | [] => ""
  | [x] => Json.pyRepr x
  | x :: rest => Json.pyRepr x ++ ", " ++ pyReprItems rest

/-- Comma-separated reprs of the entries of a decoded JSON dict. -/
def pyReprFields : List (String × Json) → String
  | [] => ""
  | [(k, v)] => "\x27" ++ k ++ "\x27: " ++ Json.pyRepr v
  | (k, v) :: rest => "\x27" ++ k ++ "\x27: " ++ Json.pyRepr v ++ ", " ++ pyReprFields rest

end

/-- Python str() of a decoded JSON value, as an f-string interpolates it:
a string renders as its own characters, everything else as its repr. -/
def Json.pyStr : Json → String
  | .str s => s
  | j => j.pyRepr

/-- Python == between a decoded JSON value and a string literal: true
exactly when the value is that string. -/
def Json.isStr (j : Json) (s : String) : Bool :=
  match j with
  | .str t => t == s
  | _ => false

/-- First-match association lookup in the fields of a decoded JSON object
(json.loads keeps one value per key, so the fields of an `obj` are unique). -/
def lookupField : List (String × Json) → String → Option Json
  | [], _ => none
  | (k, v) :: rest, key => if k == key then some v else lookupField rest key

/-- Python subscript d[key] on a decoded JSON value: a dict either yields the
value or raises KeyError; subscripting any non-dict decoded value with a
string raises TypeError. -/
def Json.lookup : Json → String → Except PyError Json
  | .obj fields, key =>
    match lookupField fields key with
    | some v => .ok v
    | none => .error (.keyError key)
  | _, key => .error (.typeError ("value is not subscriptable with key " ++ key))

/-- Python iteration (for x in v) over a decoded JSON value: lists yield
their elements, strings their characters, dicts their keys; None, numbers
and booleans raise TypeError. -/
def Json.pyIter : Json → Except PyError (List Json)
  | .arr items => .ok items
  | .str s => .ok (s.toList.map fun ch => Json.str ch.toString)
  | .obj fields => .ok (fields.map fun kv => Json.str kv.1)
  | .null => .error (.typeError "\x27NoneType\x27 object is not iterable")
  | .bool _ => .error (.typeError "\x27bool\x27 object is not iterable")
  | .num _ => .error (.typeError "\x27int\x27 object is not iterable")

/-- The external collaborators of the controller. `llm1invoke` is
llm1.invoke on the classification messages built from the question and the
previous questions, returning the raw response content (or raising);
`jsonParse` is json.loads on that content, `none` when it raises anything;
`search` is vector_db.similarity_search with k=1 and filter
\x7b"premium": premium\x7d for the given premium value (or raising);
`llm2invoke` is llm2.invoke on the messages generate_answer builds from the
question, the plan texts and the replayed history (or raising). -/
structure Collab where
  llm1invoke : String → List String → Except PyError String
  jsonParse : String → Option Json
  search : Json → Except PyError (List Record)
  llm2invoke : String → List Record → List HistItem → Except PyError String

/-- The dict understand_question returns when json.loads raises: the
except-branch of the source. -/
def parseFallback : Json :=
  Json.obj [("question_type", Json.str "INVALID"),
            ("premium_amounts", Json.null),
            ("reason", Json.str "Error parsing AI response")]

/-- understand_question of main.py/app.py: invoke llm1 (an exception there
propagates — the try only wraps json.loads), then parse the response
content, falling back to the INVALID dict when parsing raises. -/
def understand_question (c : Collab) (question : String) (prev_questions : List String) :
    Except PyError Json :=
  match c.llm1invoke question prev_questions with
  | .error e => .error e
  | .ok content =>
    match c.jsonParse content with
    | some parsed => .ok parsed
    | none => .ok parseFallback

/-- get_plans of main.py/app.py: one similarity_search per premium, keeping
the top result when there is one and silently skipping premiums with no
match; an exception from the store propagates from the loop. -/
def get_plans (search : Json → Except PyError (List Record)) :
    List Json → Except PyError (List Record)
  | [] => .ok []
  | premium :: rest =>
    match search premium with
    | .error e => .error e
    | .ok results =>
      match get_plans search rest with
      | .error e => .error e
      | .ok plans =>
        match results with
        | [] => .ok plans
        | r :: _ => .ok (r :: plans)

/-- generate_answer of main.py/app.py: builds the system prompt, replays the
history and the plan texts, and calls llm2; the answer is the content of
that call, so it is the abstract llm2invoke applied to the three inputs. -/
def generate_answer (c : Collab) (question : String) (plans : List Record)
    (history : List HistItem) : Except PyError String :=
  c.llm2invoke question plans history

/-- The instructional rejection message of the INVALID route, with the
intent reason interpolated as the f-string of the source does. -/
def invalidMsg (reason : Json) : String :=
  "Please provide 2-3 premium amounts to compare.\n" ++
  "Example: \x27compare 18000, 22500, 28000\x27\n\n" ++
  "Reason: " ++ reason.pyStr

/-- The message of the NEW route when no plans were found, interpolating the
premium_amounts value. -/
def noPlansMsg (premiums : Json) : String :=
  "No plans found for premiums: " ++ premiums.pyStr

/-- The message of the FOLLOW_UP route when there is no history yet. -/
def emptyHistoryMsg : String :=
  "Please ask a comparison question first with 2-3 premiums."

/-- chat of main.py/app.py (the two copies are identical): classify, read
question_type and premium_amounts from the understanding dict (KeyError
propagates), route to INVALID / NEW / FOLLOW_UP, and fall through returning
None for any other question_type. `.ok none` is Python's implicit None
return; `.error e` is an uncaught exception. -/
def chat (c : Collab) (question : String) (history : List HistItem)
    (prev_questions : List String) :
    Except PyError (Option (String × List HistItem × List String)) :=
  match understand_question c question prev_questions with
  | .error e => .error e
  | .ok understanding =>
    match understanding.lookup "question_type" with
    | .error e => .error e
    | .ok q_type =>
      match understanding.lookup "premium_amounts" with
      | .error e => .error e
      | .ok premiums =>
        if q_type.isStr "INVALID" then
          match understanding.lookup "reason" with
          | .error e => .error e
          | .ok reason => .ok (some (invalidMsg reason, history, prev_questions))
        else if q_type.isStr "NEW" then
          match premiums.pyIter with
          | .error e => .error e
          | .ok prems =>
            match get_plans c.search prems with
            | .error e => .error e
            | .ok plans =>
              if plans.isEmpty then
                .ok (some (noPlansMsg premiums, history, prev_questions))
              else
                match generate_answer c question plans history with
                | .error e => .error e
                | .ok answer =>
                  .ok (some (answer,
                             history ++ [⟨question, answer, some plans⟩],
                             prev_questions ++ [question]))
        else if q_type.isStr "FOLLOW_UP" then
          match history.getLast? with
          | none => .ok (some (emptyHistoryMsg, history, prev_questions))
          | some last =>
            match generate_answer c question (last.plans.getD []) history with
            | .error e => .error e
            | .ok answer =>
              .ok (some (answer,
                         history ++ [⟨question, answer, some (last.plans.getD [])⟩],
                         prev_questions ++ [question]))
        else
          .ok none

/-- The per-session Flask state: session[\x27history\x27] and
session[\x27prev_questions\x27]. -/
structure SessionState where
  history : List HistItem
  prev_questions : List String
deriving Repr, DecidableEq

/-- The HTTP outcome of the /chat endpoint: 200 with the answer, 400 for a
missing or empty message, 500 from the except-block. -/
inductive EndpointResult where
  | success (response : String)
  | badRequest (error : String)
  | serverError (error : String)
deriving Repr, DecidableEq

/-- Python str.strip() on the request message: leading and trailing
whitespace removed. -/
def pyStrip (s : String) : String :=
  String.mk (((s.toList.dropWhile Char.isWhitespace).reverse.dropWhile
    Char.isWhitespace).reverse)

/-- The serializable copy of one history item the endpoint stores in the
session: user and bot only, the "plans" key skipped. -/
def stripPlansItem (item : HistItem) : HistItem :=
  { user := item.user, bot := item.bot, plans := none }

/-- chat_endpoint of app.py. `data` is the request's "message" field (none
when the body or the key is missing). The message is stripped, the chat
result unpacked (unpacking the fall-through None raises TypeError, caught by
the endpoint's except-block like every other exception, answering 500 and
leaving the session as it was), and on success the session is updated with
the plans-stripped history and the questions. -/
def chat_endpoint (c : Collab) (data : Option String) (st : SessionState) :
    EndpointResult × SessionState :=
  match data with
  | none => (.badRequest "message is required", st)
  | some raw =>
    let message := pyStrip raw
    if message.isEmpty then
      (.badRequest "message cannot be empty", st)
    else
      match chat c message st.history st.prev_questions with
      | .error e => (.serverError e.message, st)
      | .ok none =>
        (.serverError "cannot unpack non-iterable NoneType object", st)
      | .ok (some (answer, updated_history, updated_questions)) =>
        (.success answer,
         { history := updated_history.map stripPlansItem,
           prev_questions := updated_questions })

/-- The driver that processes a sequence of utterances against one session,
threading the returned history and question log into the next call exactly
as the source's read-eval loop does (answer, history, prev_questions =
chat(...)); unpacking a fall-through None raises TypeError, and any raised
exception aborts the run. Returns the answers alongside the final state. -/
def runChats (c : Collab) : List String → List HistItem → List String →
    Except PyError (List String × List HistItem × List String)
  | [], history, prev_questions => .ok ([], history, prev_questions)
  | u :: rest, history, prev_questions =>
    match chat c u history prev_questions with
    | .error e => .error e
    | .ok none => .error (.typeError "cannot unpack non-iterable NoneType object")
    | .ok (some (answer, h2, q2)) =>
      match runChats c rest h2 q2 with
      | .error e => .error e
      | .ok (answers, h3, q3) => .ok (answer :: answers, h3, q3)

/-- Classification of what one controller step did, the vocabulary of the
append-on-success property: a committed NEW or FOLLOW_UP turn, one of the
three transient rejections, the None fall-through, or a raised exception. -/
inductive Outcome where
  | raised
  | invalidReject
  | noMatch
  | emptyHistory
  | successNew
  | successFollowUp
  | fallthroughNone
deriving Repr, DecidableEq

/-- The outcomes that commit a turn. -/
def Outcome.isSuccess : Outcome → Bool
  | .successNew => true
  | .successFollowUp => true
  | _ => false

/-- The outcome of one controller step, read off the same route structure as
chat: which branch the classified understanding reaches and whether that
branch commits a turn, rejects, falls through, or raises. -/
def stepOutcome (c : Collab) (question : String) (history : List HistItem)
    (prev_questions : List String) : Outcome :=
  match understand_question c question prev_questions with
  | .error _ => .raised
  | .ok understanding =>
    match understanding.lookup "question_type" with
    | .error _ => .raised
    | .ok q_type =>
      match understanding.lookup "premium_amounts" with
      | .error _ => .raised
      | .ok premiums =>
        if q_type.isStr "INVALID" then
          match understanding.lookup "reason" with
          | .error _ => .raised
          | .ok _ => .invalidReject
        else if q_type.isStr "NEW" then
          match premiums.pyIter with
          | .error _ => .raised
          | .ok prems =>
            match get_plans c.search prems with
            | .error _ => .raised
            | .ok plans =>
              if plans.isEmpty then .noMatch
              else
                match generate_answer c question plans history with
                | .error _ => .raised
                | .ok _ => .successNew
        else if q_type.isStr "FOLLOW_UP" then
          match history.getLast? with
          | none => .emptyHistory
          | some last =>
            match generate_answer c question (last.plans.getD []) history with
            | .error _ => .raised
            | .ok _ => .successFollowUp
        else
          .fallthroughNone

/-- The outcome of each step of a run, threading state the way runChats
does (the trace stops where the run aborts). -/
def traceOutcomes (c : Collab) : List String → List HistItem → List String → List Outcome
  | [], _, _ => []
  | u :: rest, history, prev_questions =>
    stepOutcome c u history prev_questions ::
      match chat c u history prev_questions with
      | .ok (some (_, h2, q2)) => traceOutcomes c rest h2 q2
      | _ => []

/-- Expected answers of a run of consecutive FOLLOW_UP turns whose generator
is the total function g and whose reused records are ps (statement-side
vocabulary for the record-identity property). -/
def fuAnswers (g : String → List Record → List HistItem → String) (ps : List Record) :
    List String → List HistItem → List String
  | [], _ => []
  | u :: rest, history =>
    g u ps history :: fuAnswers g ps rest (history ++ [⟨u, g u ps history, some ps⟩])

/-- Expected appended turns of a run of consecutive FOLLOW_UP turns
(statement-side vocabulary for the record-identity property). -/
def fuExt (g : String → List Record → List HistItem → String) (ps : List Record) :
    List String → List HistItem → List HistItem
  | [], _ => []
  | u :: rest, history =>
    ⟨u, g u ps history, some ps⟩ ::
      fuExt g ps rest (history ++ [⟨u, g u ps history, some ps⟩])

/-! ## Concrete collaborator instances used by the witnesses -/

/-- A stored plan record used by concrete evaluations. -/
def recA : Record := ⟨"Plan A: premium 18000, sum insured 500000", 18000⟩

/-- A second stored plan record used by concrete evaluations. -/
def recC : Record := ⟨"Plan C: premium 28000, sum insured 1000000", 28000⟩

/-- A classification dict for a NEW question over premiums 18000 and 22500. -/
def newUnd : Json :=
  Json.obj [("question_type", Json.str "NEW"),
            ("premium_amounts", Json.arr [Json.num 18000, Json.num 22500]),
            ("reason", Json.str "2 premiums to compare")]

/-- A classification dict for a FOLLOW_UP question. -/
def fuUnd : Json :=
  Json.obj [("question_type", Json.str "FOLLOW_UP"),
            ("premium_amounts", Json.null),
            ("reason", Json.str "Asking about previous results")]

/-- A classification dict for an INVALID question. -/
def invUnd : Json :=
  Json.obj [("question_type", Json.str "INVALID"),
            ("premium_amounts", Json.null),
            ("reason", Json.str "Not insurance related")]

/-- Collaborators whose classifier always answers NEW over two premiums and
whose store always finds recA. -/
def cNew : Collab :=
  ⟨fun question _ => .ok question, fun _ => some newUnd,
   fun _ => .ok [recA], fun _ _ _ => .ok "ansN"⟩

/-- Collaborators whose classifier always answers FOLLOW_UP. -/
def cFollow : Collab :=
  ⟨fun question _ => .ok question, fun _ => some fuUnd,
   fun _ => .ok [], fun _ _ _ => .ok "ansF"⟩

/-- Collaborators whose classifier always answers INVALID. -/
def cInvalid : Collab :=
  ⟨fun question _ => .ok question, fun _ => some invUnd,
   fun _ => .ok [], fun _ _ _ => .ok "ansI"⟩

/-- Collaborators whose classification response is not parseable JSON. -/
def cParseFail : Collab :=
  ⟨fun _ _ => .ok "plain text, not JSON", fun _ => none,
   fun _ => .ok [], fun _ _ _ => .ok ""⟩

/-! ## Shared helper lemmas -/

/-- One controller step either commits exactly one turn and one question
(when its outcome is a success) or returns the logs unchanged. -/
lemma chat_state_change (c : Collab) (u : String) (h : List HistItem) (q : List String)
    (a : String) (h2 : List HistItem) (q2 : List String)
    (hok : chat c u h q = .ok (some (a, h2, q2))) :
    ((stepOutcome c u h q).isSuccess = true ∧ ∃ item, h2 = h ++ [item] ∧ q2 = q ++ [u])
    ∨ ((stepOutcome c u h q).isSuccess = false ∧ h2 = h ∧ q2 = q) := by
  unfold chat at hok
  unfold stepOutcome
  split at hok
  · exact Except.noConfusion hok
  split at hok
  · exact Except.noConfusion hok
  split at hok
  · exact Except.noConfusion hok
  split at hok
  · rename_i hInv
    rw [if_pos hInv]
    split at hok
    · exact Except.noConfusion hok
    obtain ⟨-, rfl, rfl⟩ := by simpa using hok
    exact Or.inr ⟨rfl, rfl, rfl⟩
  rename_i hInv
  rw [if_neg hInv]
  split at hok
  · rename_i hNew
    rw [if_pos hNew]
    split at hok
    · exact Except.noConfusion hok
    split at hok
    · exact Except.noConfusion hok
    split at hok
    · rename_i hEmp
      rw [if_pos hEmp]
      obtain ⟨-, rfl, rfl⟩ := by simpa using hok
      exact Or.inr ⟨rfl, rfl, rfl⟩
    rename_i hEmp
    rw [if_neg hEmp]
    split at hok
    · exact Except.noConfusion hok
    obtain ⟨rfl, rfl, rfl⟩ := by simpa using hok
    exact Or.inl ⟨rfl, ⟨_, rfl, rfl⟩⟩
  rename_i hNew
  rw [if_neg hNew]
  split at hok
  · rename_i hFU
    rw [if_pos hFU]
    split at hok
    · obtain ⟨-, rfl, rfl⟩ := by simpa using hok
      exact Or.inr ⟨rfl, rfl, rfl⟩
    split at hok
    · exact Except.noConfusion hok
    obtain ⟨rfl, rfl, rfl⟩ := by simpa using hok
    exact Or.inl ⟨rfl, ⟨_, rfl, rfl⟩⟩
  rename_i hFU
  rw [if_neg hFU]
  exact Option.noConfusion (Except.ok.inj hok)

/-! ## Claim C6 -/

/-- Claim C6: for every supplied sequence of keys, fetch performs one
exact-match lookup per key keeping at most one record per key (the head of
that lookup's result), returns the kept records in the order the keys were
supplied, silently omits keys with no match, and so returns at most as many
records as keys. `f` is the per-key result of the store. -/
theorem fetch_order_and_silent_drop (search : Json → Except PyError (List Record))
    (f : Json → List Record) (ps : List Json)
    (hs : ∀ p, search p = .ok (f p)) :
    get_plans search ps = .ok (ps.filterMap fun p => (f p).head?)
    ∧ (ps.filterMap fun p => (f p).head?).length ≤ ps.length := by
  refine ⟨?_, List.length_filterMap_le _ _⟩
  induction ps with
  | nil => simp [get_plans]
  | cons p rest ih =>
    simp only [get_plans, hs p, ih]
    cases hf : f p with
    | nil => simp [List.filterMap_cons, hf]
    | cons r rs => simp [List.filterMap_cons, hf]

/-- The concrete store used by the C6 witness: premiums 18000 and 28000
match, 22500 does not. -/
def fetchW : Json → List Record := fun p =>
  match p with
  | .num 18000 => [recA]
  | .num 28000 => [recC]
  | _ => []

/-- Witness for C6, at the three keys 18000, 22500, 28000: the middle key is
dropped and order is preserved. -/
theorem fetch_order_and_silent_drop_witness :
    get_plans (fun p => .ok (fetchW p)) [Json.num 18000, Json.num 22500, Json.num 28000]
      = .ok [recA, recC]
    ∧ (2 : Nat) ≤ 3 := by
  have hmain := fetch_order_and_silent_drop (fun p => .ok (fetchW p)) fetchW
    [Json.num 18000, Json.num 22500, Json.num 28000] (fun p => rfl)
  exact ⟨hmain.1, hmain.2⟩

/-! ## Claim C3 -/

/-- Claim C3 (amended): for every raw classification response whose JSON
decode fails, understand_question returns the INVALID fallback dict — with
reason "Error parsing AI response" — instead of propagating an exception. -/
theorem classifier_parse_fallback (c : Collab) (question : String)
    (prev_questions : List String) (content : String)
    (hinv : c.llm1invoke question prev_questions = .ok content)
    (hparse : c.jsonParse content = none) :
    understand_question c question prev_questions = .ok parseFallback
    ∧ Json.lookup parseFallback "question_type" = .ok (Json.str "INVALID")
    ∧ Json.lookup parseFallback "reason" = .ok (Json.str "Error parsing AI response") := by
  refine ⟨?_, rfl, rfl⟩
  simp only [understand_question, hinv, hparse]

/-- Witness for C3 at a concrete unparseable response. -/
theorem classifier_parse_fallback_witness :
    understand_question cParseFail "compare plans" [] = .ok parseFallback
    ∧ Json.lookup parseFallback "question_type" = .ok (Json.str "INVALID")
    ∧ Json.lookup parseFallback "reason" = .ok (Json.str "Error parsing AI response") :=
  classifier_parse_fallback cParseFail "compare plans" [] "plain text, not JSON" rfl rfl

/-- Counterexample for C3 as stated: at a concrete unparseable response the
fallback intent's reason is the string "Error parsing AI response", not the
claimed "parse error". -/
theorem classifier_fallback_reason_counterexample :
    understand_question cParseFail "compare plans" [] = .ok parseFallback
    ∧ Json.lookup parseFallback "reason" = .ok (Json.str "Error parsing AI response")
    ∧ Json.lookup parseFallback "reason" ≠ .ok (Json.str "parse error") := by
  refine ⟨rfl, rfl, ?_⟩
  intro hcontra
  simp [Json.lookup, lookupField, parseFallback] at hcontra

/-! ## Claim C5 -/

/-- Claim C5: every controller call preserves the log-length equality
invariant — it either appends exactly one element to both the turn log and
the question log, or appends to neither. -/
theorem log_length_equality (c : Collab) (u : String) (h : List HistItem)
    (q : List String) (a : String) (h2 : List HistItem) (q2 : List String)
    (hlen : h.length = q.length)
    (hok : chat c u h q = .ok (some (a, h2, q2))) :
    h2.length = q2.length
    ∧ ((h2 = h ∧ q2 = q) ∨ ∃ item, h2 = h ++ [item] ∧ q2 = q ++ [u]) := by
  rcases chat_state_change c u h q a h2 q2 hok with ⟨-, item, rfl, rfl⟩ | ⟨-, rfl, rfl⟩
  · exact ⟨by simp [hlen], Or.inr ⟨item, rfl, rfl⟩⟩
  · exact ⟨hlen, Or.inl ⟨rfl, rfl⟩⟩

/-- Witness for C5: a committed NEW turn at a concrete input, with both logs
growing from 0 to 1. -/
theorem log_length_equality_witness :
    ([⟨"compare 18000, 22500", "ansN", some [recA, recA]⟩] : List HistItem).length
      = (["compare 18000, 22500"] : List String).length :=
  (log_length_equality cNew "compare 18000, 22500" [] [] "ansN"
    [⟨"compare 18000, 22500", "ansN", some [recA, recA]⟩] ["compare 18000, 22500"]
    rfl rfl).1

/-! ## Claim C2 -/

/-- Over any successfully processed utterance sequence, the final log
lengths grow by exactly the number of success outcomes along the trace. -/
lemma runChats_length (c : Collab) :
    ∀ (us : List String) (h : List HistItem) (q : List String) (anss : List String)
      (h2 : List HistItem) (q2 : List String),
      runChats c us h q = .ok (anss, h2, q2) →
      h2.length = h.length + (traceOutcomes c us h q).countP Outcome.isSuccess
      ∧ q2.length = q.length + (traceOutcomes c us h q).countP Outcome.isSuccess := by
  intro us
  induction us with
  | nil =>
    intro h q anss h2 q2 hrun
    obtain ⟨-, rfl, rfl⟩ := by simpa [runChats] using hrun
    simp [traceOutcomes]
  | cons u rest ih =>
    intro h q anss h2 q2 hrun
    rw [runChats] at hrun
    split at hrun
    · exact Except.noConfusion hrun
    · exact Except.noConfusion hrun
    rename_i a hM qM hc
    split at hrun
    · exact Except.noConfusion hrun
    rename_i anss2 h3 q3 hr2
    obtain ⟨-, rfl, rfl⟩ := by simpa using hrun
    have htr : traceOutcomes c (u :: rest) h q
        = stepOutcome c u h q :: traceOutcomes c rest hM qM := by
      rw [traceOutcomes]
      simp only [hc]
    rw [htr]
    obtain ⟨ih1, ih2⟩ := ih hM qM anss2 h3 q3 hr2
    rcases chat_state_change c u h q a hM qM hc with ⟨hs, item, rfl, rfl⟩ | ⟨hs, rfl, rfl⟩
    · simp [List.countP_cons, hs, List.length_append] at *
      omega
    · simp [List.countP_cons, hs] at *
      omega

/-- Claim C2: after processing a sequence of utterances, the turn log and
question log have grown by exactly the number of utterances whose outcome
was a successful NEW or FOLLOW_UP; moreover a single step with a
non-success outcome (INVALID, empty match, empty history) returns both logs
unchanged, and a step with a success outcome appends exactly one turn and
one question. -/
theorem append_on_success_only (c : Collab) (us : List String) (h : List HistItem)
    (q : List String) (anss : List String) (hFin : List HistItem) (qFin : List String)
    (hrun : runChats c us h q = .ok (anss, hFin, qFin)) :
    hFin.length = h.length + (traceOutcomes c us h q).countP Outcome.isSuccess
    ∧ qFin.length = q.length + (traceOutcomes c us h q).countP Outcome.isSuccess
    ∧ (∀ u1 h1 q1 a1 hA qA, chat c u1 h1 q1 = .ok (some (a1, hA, qA)) →
        ((stepOutcome c u1 h1 q1).isSuccess = false → hA = h1 ∧ qA = q1)
        ∧ ((stepOutcome c u1 h1 q1).isSuccess = true →
             ∃ item, hA = h1 ++ [item] ∧ qA = q1 ++ [u1])) := by
  refine ⟨(runChats_length c us h q anss hFin qFin hrun).1,
          (runChats_length c us h q anss hFin qFin hrun).2, ?_⟩
  intro u1 h1 q1 a1 hA qA hok
  rcases chat_state_change c u1 h1 q1 a1 hA qA hok with ⟨hs, item, rfl, rfl⟩ | ⟨hs, rfl, rfl⟩
  · exact ⟨fun hfalse => absurd hs (by simp [hfalse]), fun _ => ⟨item, rfl, rfl⟩⟩
  · exact ⟨fun _ => ⟨rfl, rfl⟩, fun htrue => absurd hs (by simp [htrue])⟩

/-- Collaborators whose classifier answers NEW for the utterance "new" and
INVALID otherwise, used by the C2 witness. -/
def cMixed : Collab :=
  ⟨fun question _ => .ok question,
   fun s => if s == "new" then some newUnd else some invUnd,
   fun _ => .ok [recA], fun _ _ _ => .ok "ansN"⟩

/-- Witness for C2: a two-utterance run (one committed NEW, one rejected
INVALID) grows the turn log from 0 to 1 = the success count of its trace. -/
theorem append_on_success_only_witness :
    ([⟨"new", "ansN", some [recA, recA]⟩] : List HistItem).length
      = ([] : List HistItem).length
        + (traceOutcomes cMixed ["new", "hello"] [] []).countP Outcome.isSuccess :=
  (append_on_success_only cMixed ["new", "hello"] [] []
    ["ansN", invalidMsg (Json.str "Not insurance related")]
    [⟨"new", "ansN", some [recA, recA]⟩] ["new"] rfl).1

/-! ## Claim C7 -/

/-- Claim C7: a NEW intent whose fetch yields zero records returns the
no-plans instructional message with both logs untouched; and (second
conjunct) a FOLLOW_UP intent arriving on an empty turn log returns the
ask-first instructional message with both logs untouched. Neither raises. -/
theorem nomatch_and_emptyhistory_messages (c : Collab) (u : String) (h : List HistItem)
    (q : List String) (und pa : Json) (prems : List Json)
    (hund : understand_question c u q = .ok und)
    (hqt : Json.lookup und "question_type" = .ok (Json.str "NEW"))
    (hpa : Json.lookup und "premium_amounts" = .ok pa)
    (hit : Json.pyIter pa = .ok prems)
    (hfetch : get_plans c.search prems = .ok []) :
    chat c u h q = .ok (some (noPlansMsg pa, h, q))
    ∧ (∀ (c2 : Collab) (u2 : String) (q2 : List String) (und2 pa2 : Json),
        understand_question c2 u2 q2 = .ok und2 →
        Json.lookup und2 "question_type" = .ok (Json.str "FOLLOW_UP") →
        Json.lookup und2 "premium_amounts" = .ok pa2 →
        chat c2 u2 [] q2 = .ok (some (emptyHistoryMsg, [], q2))) := by
  constructor
  · simp [chat, hund, hqt, hpa, hit, hfetch, Json.isStr]
  · intro c2 u2 q2 und2 pa2 hund2 hqt2 hpa2
    simp [chat, hund2, hqt2, hpa2, Json.isStr]

/-- Collaborators whose classifier answers NEW but whose store never finds a
record, used by the C7 witness. -/
def cNoMatch : Collab :=
  ⟨fun question _ => .ok question, fun _ => some newUnd,
   fun _ => .ok [], fun _ _ _ => .ok "never"⟩

/-- Witness for C7: the no-match NEW at a concrete input leaves the logs
empty and answers the instructional message. -/
theorem nomatch_and_emptyhistory_messages_witness :
    chat cNoMatch "compare 18000, 22500" [] []
      = .ok (some (noPlansMsg (Json.arr [Json.num 18000, Json.num 22500]), [], [])) :=
  (nomatch_and_emptyhistory_messages cNoMatch "compare 18000, 22500" [] []
    newUnd (Json.arr [Json.num 18000, Json.num 22500])
    [Json.num 18000, Json.num 22500] rfl rfl rfl rfl rfl).1

/-! ## Claim C10 -/

/-- Claim C10: a classified dict whose question_type is none of NEW,
FOLLOW_UP, INVALID falls through every route and chat returns Python's
implicit None; and (second and third conjuncts) a classified dict lacking
the question_type or premium_amounts key makes chat raise KeyError, the
parse fallback notwithstanding. -/
theorem unrecognized_intent_and_keyerror (c : Collab) (u : String) (h : List HistItem)
    (q : List String) (und v pa : Json)
    (hund : understand_question c u q = .ok und)
    (hqt : Json.lookup und "question_type" = .ok v)
    (hpa : Json.lookup und "premium_amounts" = .ok pa)
    (hv1 : v.isStr "INVALID" = false)
    (hv2 : v.isStr "NEW" = false)
    (hv3 : v.isStr "FOLLOW_UP" = false) :
    chat c u h q = .ok none
    ∧ (∀ (c2 : Collab) (u2 : String) (h2 : List HistItem) (q2 : List String)
         (fields : List (String × Json)),
        understand_question c2 u2 q2 = .ok (Json.obj fields) →
        lookupField fields "question_type" = none →
        chat c2 u2 h2 q2 = .error (.keyError "question_type"))
    ∧ (∀ (c2 : Collab) (u2 : String) (h2 : List HistItem) (q2 : List String)
         (fields : List (String × Json)) (qt : Json),
        understand_question c2 u2 q2 = .ok (Json.obj fields) →
        lookupField fields "question_type" = some qt →
        lookupField fields "premium_amounts" = none →
        chat c2 u2 h2 q2 = .error (.keyError "premium_amounts")) := by
  refine ⟨?_, ?_, ?_⟩
  · simp [chat, hund, hqt, hpa, hv1, hv2, hv3]
  · intro c2 u2 h2 q2 fields hund2 hmiss
    simp [chat, hund2, Json.lookup, hmiss]
  · intro c2 u2 h2 q2 fields qt hund2 hqt2 hmiss
    simp [chat, hund2, Json.lookup, hqt2, hmiss]

/-- A classified dict with an unrecognized question_type. -/
def weirdUnd : Json :=
  Json.obj [("question_type", Json.str "MAYBE"),
            ("premium_amounts", Json.null),
            ("reason", Json.str "odd value")]

/-- Collaborators producing the unrecognized classification. -/
def cWeird : Collab :=
  ⟨fun question _ => .ok question, fun _ => some weirdUnd,
   fun _ => .ok [], fun _ _ _ => .ok "never"⟩

/-- Witness for C10: the unrecognized question_type MAYBE makes chat return
the None fall-through at a concrete input. -/
theorem unrecognized_intent_and_keyerror_witness :
    chat cWeird "hmm" [] [] = .ok none :=
  (unrecognized_intent_and_keyerror cWeird "hmm" [] [] weirdUnd (Json.str "MAYBE")
    Json.null rfl rfl rfl rfl rfl rfl).1

/-! ## Claim C8 -/

/-- Claim C8: an utterance the classifier maps to INVALID, submitted any
number of times, produces that many identical instructional responses (the
fixed message embedding the intent's reason) and returns the turn log and
question log exactly as they were. -/
theorem idempotent_rejection (c : Collab) (u : String) (h : List HistItem)
    (q : List String) (n : Nat) (und pa r : Json)
    (hund : understand_question c u q = .ok und)
    (hqt : Json.lookup und "question_type" = .ok (Json.str "INVALID"))
    (hpa : Json.lookup und "premium_amounts" = .ok pa)
    (hr : Json.lookup und "reason" = .ok r) :
    runChats c (List.replicate n u) h q = .ok (List.replicate n (invalidMsg r), h, q) := by
  induction n with
  | zero => simp [runChats]
  | succ m ih =>
    have hstep : chat c u h q = .ok (some (invalidMsg r, h, q)) := by
      simp [chat, hund, hqt, hpa, hr, Json.isStr]
    rw [List.replicate_succ, runChats]
    simp only [hstep, ih, List.replicate_succ]

/-- Witness for C8: three submissions of the same INVALID utterance yield
three identical rejection messages and an unchanged (empty) session. -/
theorem idempotent_rejection_witness :
    runChats cInvalid (List.replicate 3 "what is the weather?") [] []
      = .ok (List.replicate 3 (invalidMsg (Json.str "Not insurance related")), [], []) :=
  idempotent_rejection cInvalid "what is the weather?" [] [] 3
    invUnd Json.null (Json.str "Not insurance related") rfl rfl rfl rfl

/-! ## Claim C4 -/

/-- Claim C4: the controller catches no collaborator exception. With a
raising classifier call the exception comes back verbatim from chat
(conjunct 1) and the serving boundary answers 500 with the session exactly
as it was (conjunct 2); a raising retriever on the NEW path (conjunct 3), a
raising generator on the NEW path (conjunct 4) and on the FOLLOW_UP path
(conjunct 5) likewise propagate verbatim; and every chat exception reaching
the endpoint leaves the session unmodified (conjunct 6). -/
theorem collaborator_failure_atomicity (c : Collab) (u : String) (st : SessionState)
    (e : PyError)
    (hstrip : pyStrip u = u) (hne : u.isEmpty = false)
    (hclass : c.llm1invoke u st.prev_questions = .error e) :
    chat c u st.history st.prev_questions = .error e
    ∧ chat_endpoint c (some u) st = (.serverError e.message, st)
    ∧ (∀ (c2 : Collab) (u2 : String) (h2 : List HistItem) (q2 : List String)
         (und pa : Json) (prems : List Json) (e2 : PyError),
        understand_question c2 u2 q2 = .ok und →
        Json.lookup und "question_type" = .ok (Json.str "NEW") →
        Json.lookup und "premium_amounts" = .ok pa →
        Json.pyIter pa = .ok prems →
        get_plans c2.search prems = .error e2 →
        chat c2 u2 h2 q2 = .error e2)
    ∧ (∀ (c2 : Collab) (u2 : String) (h2 : List HistItem) (q2 : List String)
         (und pa : Json) (prems : List Json) (plans : List Record) (e2 : PyError),
        understand_question c2 u2 q2 = .ok und →
        Json.lookup und "question_type" = .ok (Json.str "NEW") →
        Json.lookup und "premium_amounts" = .ok pa →
        Json.pyIter pa = .ok prems →
        get_plans c2.search prems = .ok plans →
        plans.isEmpty = false →
        c2.llm2invoke u2 plans h2 = .error e2 →
        chat c2 u2 h2 q2 = .error e2)
    ∧ (∀ (c2 : Collab) (u2 : String) (h2 : List HistItem) (q2 : List String)
         (und pa : Json) (last : HistItem) (e2 : PyError),
        understand_question c2 u2 q2 = .ok und →
        Json.lookup und "question_type" = .ok (Json.str "FOLLOW_UP") →
        Json.lookup und "premium_amounts" = .ok pa →
        h2.getLast? = some last →
        c2.llm2invoke u2 (last.plans.getD []) h2 = .error e2 →
        chat c2 u2 h2 q2 = .error e2)
    ∧ (∀ (c2 : Collab) (m2 : String) (st2 : SessionState) (e2 : PyError),
        pyStrip m2 = m2 → m2.isEmpty = false →
        chat c2 m2 st2.history st2.prev_questions = .error e2 →
        chat_endpoint c2 (some m2) st2 = (.serverError e2.message, st2)) := by
  have hchat : chat c u st.history st.prev_questions = .error e := by
    simp [chat, understand_question, hclass]
  refine ⟨hchat, ?_, ?_, ?_, ?_, ?_⟩
  · simp [chat_endpoint, hstrip, hne, hchat]
  · intro c2 u2 h2 q2 und pa prems e2 hund hqt hpa hit hgp
    simp [chat, hund, hqt, hpa, hit, hgp, Json.isStr]
  · intro c2 u2 h2 q2 und pa prems plans e2 hund hqt hpa hit hgp hplans hgen
    simp [chat, generate_answer, hund, hqt, hpa, hit, hgp, hplans, hgen, Json.isStr]
  · intro c2 u2 h2 q2 und pa last e2 hund hqt hpa hlast hgen
    simp [chat, generate_answer, hund, hqt, hpa, hlast, hgen, Json.isStr]
  · intro c2 m2 st2 e2 hstrip2 hne2 hchat2
    simp [chat_endpoint, hstrip2, hne2, hchat2]

/-- Collaborators whose classification call itself raises. -/
def cErr : Collab :=
  ⟨fun _ _ => .error (.exn "connection reset"), fun _ => some invUnd,
   fun _ => .ok [], fun _ _ _ => .ok "never"⟩

/-- Witness for C4: a raising classifier at a concrete input propagates out
of chat and the endpoint answers 500 without touching the session. -/
theorem collaborator_failure_atomicity_witness :
    chat cErr "boom" [] [] = .error (.exn "connection reset")
    ∧ chat_endpoint cErr (some "boom") ⟨[], []⟩
        = (.serverError "connection reset", ⟨[], []⟩) := by
  have hmain := collaborator_failure_atomicity cErr "boom" ⟨[], []⟩
    (.exn "connection reset") rfl rfl rfl
  exact ⟨hmain.1, hmain.2.1⟩

/-! ## Claim C9 -/

/-- Claim C9: after every successful /chat request the session's stored
history items all lack the plans entry (conjunct 1); consequently (conjunct
2) a FOLLOW_UP arriving over such a stored history — non-empty, every item
without plans — reuses the empty record list: the generator is invoked with
zero records and its answer is the turn's response, the new turn caching
the empty list. -/
theorem session_history_drops_plans (c : Collab) (data : Option String)
    (st : SessionState) (resp : String) (st2 : SessionState)
    (hreq : chat_endpoint c data st = (.success resp, st2)) :
    st2.history.all (fun item => item.plans.isNone) = true
    ∧ (∀ (c2 : Collab) (m2 : String) (h2 : List HistItem) (q2 : List String)
         (und2 pa2 : Json) (a2 : String),
        h2.all (fun item => item.plans.isNone) = true → h2 ≠ [] →
        understand_question c2 m2 q2 = .ok und2 →
        Json.lookup und2 "question_type" = .ok (Json.str "FOLLOW_UP") →
        Json.lookup und2 "premium_amounts" = .ok pa2 →
        c2.llm2invoke m2 [] h2 = .ok a2 →
        chat c2 m2 h2 q2 = .ok (some (a2, h2 ++ [⟨m2, a2, some []⟩], q2 ++ [m2]))) := by
  constructor
  · unfold chat_endpoint at hreq
    split at hreq
    · exact absurd (congrArg Prod.fst hreq) (by simp)
    dsimp only at hreq
    split at hreq
    · exact absurd (congrArg Prod.fst hreq) (by simp)
    split at hreq
    · exact absurd (congrArg Prod.fst hreq) (by simp)
    · exact absurd (congrArg Prod.fst hreq) (by simp)
    have hst2 := congrArg Prod.snd hreq
    simp only at hst2
    rw [← hst2]
    simp [List.all_map, stripPlansItem]
  · intro c2 m2 h2 q2 und2 pa2 a2 hall hne hund2 hqt2 hpa2 hgen
    cases hL : h2.getLast? with
    | none => exact absurd (List.getLast?_eq_none_iff.mp hL) hne
    | some last =>
      have hplans : last.plans = none := by
        obtain ⟨l', rfl⟩ := List.getLast?_eq_some_iff.mp hL
        simp [List.all_append] at hall
        simpa [Option.isNone_iff_eq_none] using hall.2
      have hre : last.plans.getD [] = [] := by rw [hplans]; rfl
      simp [chat, generate_answer, hund2, hqt2, hpa2, hL, hre, hgen, Json.isStr]

/-- Witness for C9: a successful NEW request at a concrete input stores a
history whose single item carries no plans. -/
theorem session_history_drops_plans_witness :
    (SessionState.mk [⟨"compare 18000, 22500", "ansN", none⟩]
        ["compare 18000, 22500"]).history.all (fun item => item.plans.isNone) = true :=
  (session_history_drops_plans cNew (some "compare 18000, 22500") ⟨[], []⟩ "ansN"
    ⟨[⟨"compare 18000, 22500", "ansN", none⟩], ["compare 18000, 22500"]⟩ rfl).1

/-! ## Claim C1 -/

/-- A run of consecutive FOLLOW_UP-classified utterances commits exactly the
expected turns: each answer is the total generator g applied to the growing
history, each new turn caches ps, and the question log extends by the
utterances in order. -/
lemma runChats_followup (c : Collab)
    (g : String → List Record → List HistItem → String) (ps : List Record)
    (hgen : ∀ u rs hist, c.llm2invoke u rs hist = .ok (g u rs hist)) :
    ∀ (us : List String) (h : List HistItem) (q : List String) (last : HistItem),
      h.getLast? = some last → last.plans = some ps →
      (∀ u, u ∈ us → ∀ q1, ∃ und, understand_question c u q1 = .ok und
          ∧ Json.lookup und "question_type" = .ok (Json.str "FOLLOW_UP")
          ∧ ∃ pa, Json.lookup und "premium_amounts" = .ok pa) →
      runChats c us h q = .ok (fuAnswers g ps us h, h ++ fuExt g ps us h, q ++ us) := by
  intro us
  induction us with
  | nil =>
    intro h q last hL hp hcl
    simp [runChats, fuAnswers, fuExt]
  | cons u rest ih =>
    intro h q last hL hp hcl
    obtain ⟨und, hund, hqt, pa, hpa⟩ := hcl u (List.mem_cons_self u rest) q
    have hstep : chat c u h q
        = .ok (some (g u ps h, h ++ [⟨u, g u ps h, some ps⟩], q ++ [u])) := by
      simp [chat, generate_answer, hund, hqt, hpa, hL, hp, hgen, Json.isStr]
    rw [runChats]
    simp only [hstep]
    have hrec := ih (h ++ [⟨u, g u ps h, some ps⟩]) (q ++ [u]) ⟨u, g u ps h, some ps⟩
      (List.getLast?_concat _) rfl (fun v hv q1 => hcl v (List.mem_cons_of_mem u hv) q1)
    simp only [hrec, fuAnswers, fuExt]
    simp [List.append_assoc]

/-- Every turn a consecutive-FOLLOW_UP run commits caches exactly ps. -/
lemma fuExt_plans (g : String → List Record → List HistItem → String)
    (ps : List Record) :
    ∀ (us : List String) (h : List HistItem),
      ∀ item ∈ fuExt g ps us h, item.plans = some ps := by
  intro us
  induction us with
  | nil => intro h item hmem; simp [fuExt] at hmem
  | cons u rest ih =>
    intro h item hmem
    simp only [fuExt, List.mem_cons] at hmem
    rcases hmem with rfl | hmem
    · rfl
    · exact ih _ item hmem

/-- A consecutive-FOLLOW_UP run commits one turn per utterance. -/
lemma fuExt_length (g : String → List Record → List HistItem → String)
    (ps : List Record) :
    ∀ (us : List String) (h : List HistItem), (fuExt g ps us h).length = us.length := by
  intro us
  induction us with
  | nil => intro h; rfl
  | cons u rest ih => intro h; simp [fuExt, ih]

/-- Claim C1: on a session with a non-empty turn log whose last turn caches
ps, any number of consecutive FOLLOW_UP utterances commits turns whose
referenced records are all exactly ps — each turn copies the immediately
preceding turn's records — one turn per utterance, and the whole run never
consults the content store: replacing the search collaborator by any other
leaves the run's result unchanged. -/
theorem followup_record_identity (c : Collab)
    (g : String → List Record → List HistItem → String) (ps : List Record)
    (us : List String) (h : List HistItem) (q : List String) (last : HistItem)
    (hlast : h.getLast? = some last) (hps : last.plans = some ps)
    (hgen : ∀ u rs hist, c.llm2invoke u rs hist = .ok (g u rs hist))
    (hclass : ∀ u, u ∈ us → ∀ q1, ∃ und, understand_question c u q1 = .ok und
        ∧ Json.lookup und "question_type" = .ok (Json.str "FOLLOW_UP")
        ∧ ∃ pa, Json.lookup und "premium_amounts" = .ok pa) :
    runChats c us h q = .ok (fuAnswers g ps us h, h ++ fuExt g ps us h, q ++ us)
    ∧ (∀ item, item ∈ fuExt g ps us h → item.plans = some ps)
    ∧ (fuExt g ps us h).length = us.length
    ∧ (∀ s2 : Json → Except PyError (List Record),
        runChats { c with search := s2 } us h q = runChats c us h q) := by
  have hmain := runChats_followup c g ps hgen us h q last hlast hps hclass
  refine ⟨hmain, fuExt_plans g ps us h, fuExt_length g ps us h, ?_⟩
  intro s2
  have hmain2 := runChats_followup { c with search := s2 } g ps hgen us h q last
    hlast hps hclass
  rw [hmain, hmain2]

/-- Witness for C1: two consecutive FOLLOW_UPs over a one-turn session whose
turn caches [recA]. -/
theorem followup_record_identity_witness :
    runChats cFollow ["which is cheaper?", "best for family of 4?"]
        [⟨"compare 18000, 22500", "ans0", some [recA]⟩] ["compare 18000, 22500"]
      = .ok (fuAnswers (fun _ _ _ => "ansF") [recA]
               ["which is cheaper?", "best for family of 4?"]
               [⟨"compare 18000, 22500", "ans0", some [recA]⟩],
             [⟨"compare 18000, 22500", "ans0", some [recA]⟩]
               ++ fuExt (fun _ _ _ => "ansF") [recA]
                   ["which is cheaper?", "best for family of 4?"]
                   [⟨"compare 18000, 22500", "ans0", some [recA]⟩],
             ["compare 18000, 22500"]
               ++ ["which is cheaper?", "best for family of 4?"]) :=
  (followup_record_identity cFollow (fun _ _ _ => "ansF") [recA]
    ["which is cheaper?", "best for family of 4?"]
    [⟨"compare 18000, 22500", "ans0", some [recA]⟩] ["compare 18000, 22500"]
    ⟨"compare 18000, 22500", "ans0", some [recA]⟩ rfl rfl (fun _ _ _ => rfl)
    (fun _ _ _ => ⟨fuUnd, rfl, rfl, ⟨Json.null, rfl⟩⟩)).1
